import Mathlib

/-!
Verification of the core of the stock-analysis tool.

The embedding below follows the Python sources:
* `src/analysis.py` — sentiment scoring (`analyze_sentiment`) and the
  recommendation fusion engine (`make_recommendation`);
* `src/chart_detection.py` — line-pattern analysis (`analyze_line_pattern`)
  and the chart verdict (`detect_chart`);
* `src/ocr.py` — template matching (`match_character`) and the ticker
  recognizer (`detect_ticker`).

Machine floats are modelled as rationals (ℚ), Python ints as ℤ/ℕ, Python
strings as Lean `String` (headline text as `List Char` so that the
character-level scan is the visible computation), `None` as `Option.none`.
OpenCV primitives (edge detection, Hough transform, contour extraction,
normalized cross-correlation) are image computations outside the scope of
the scored logic; each function that consumes their output takes that
output as an input, exactly at the boundary where the source receives it.
-/

namespace StockAnalysis

/-! ## Sentiment scorer (`src/analysis.py`, lines 9-19 and 115-157) -/

/-- The positive keyword set of `analysis.py` (lines 9-13), in source order.
Python iterates a `set`; the keyword count below is order-independent, so a
list of the same distinct words is a faithful model. -/
def POSITIVE_KEYWORDS : List String :=
  ["buy", "bullish", "upgrade", "growth", "profit", "gain", "positive",
   "surge", "jump", "rise", "up", "higher", "strong", "success", "beat",
   "exceed", "outperform", "record"]

/-- The negative keyword set of `analysis.py` (lines 15-19). -/
def NEGATIVE_KEYWORDS : List String :=
  ["sell", "bearish", "downgrade", "loss", "negative", "decline", "drop",
   "fall", "down", "lower", "weak", "fail", "miss", "underperform",
   "bankruptcy", "debt", "risk"]

/-- Whether `needle` is an initial segment of `hay` (helper for the Python
substring test). -/
def leadsWith : List Char → List Char → Bool
  | [], _ => true
  | _ :: _, [] => false
  | a :: as, b :: bs => a == b && leadsWith as bs

/-- Python substring containment `needle in hay` on character lists:
some contiguous slice of `hay` equals `needle`. -/
def containsSub (needle : List Char) : List Char → Bool
  | [] => leadsWith needle []
  | b :: bs => leadsWith needle (b :: bs) || containsSub needle bs

/-- One iteration of the headline loop of `analyze_sentiment`
(`analysis.py` lines 130-139): lowercase the headline, count the positive
and the negative keywords occurring in it as substrings, return the
difference. -/
def headline_score (headline : List Char) : ℤ :=
  let lowered := headline.map Char.toLower
  let pos_count : ℤ := (POSITIVE_KEYWORDS.countP (fun w => containsSub w.toList lowered) : ℕ)
  let neg_count : ℤ := (NEGATIVE_KEYWORDS.countP (fun w => containsSub w.toList lowered) : ℕ)
  pos_count - neg_count

/-- `analyze_sentiment` (`analysis.py` lines 115-157): empty input is the
Neutral zero score; otherwise sum the per-headline scores, normalize by
`max(len(headlines) * 3, 1)` scaled to ±100, and label by the strict
thresholds ±20. -/
def analyze_sentiment (headlines : List (List Char)) : ℚ × String :=
  if headlines = [] then (0, "Neutral")
  else
    let total_score : ℤ := (headlines.map headline_score).sum
    let max_possible : ℤ := max (headlines.length * 3) 1
    let normalized_score : ℚ := ((total_score : ℚ) / (max_possible : ℚ)) * 100
    let label : String :=
      if normalized_score > 20 then "Positive"
      else if normalized_score < -20 then "Negative"
      else "Neutral"
    (normalized_score, label)

/-! ## Recommendation fusion engine (`src/analysis.py`, lines 159-213) -/

/-- The Price Snapshot produced by `fetch_stock_data` (`analysis.py`
lines 54-60). -/
structure StockData where
  price : ℚ
  price_change : ℚ
  trend : ℚ
  volume : ℚ
  volume_trend : ℚ
deriving DecidableEq

/-- `make_recommendation` (`analysis.py` lines 159-213): point accumulation
from a base confidence of 50 driven by the trend, volume and sentiment
signals, then the fusion rules.  `none` models the Python falsy
`stock_data` guard on line 171. -/
def make_recommendation (stock_data : Option StockData) (sentiment_score : ℚ) :
    String × ℤ :=
  match stock_data with
  | none => ("HOLD", 50)
  | some d =>
    let confidence0 : ℤ := 50
    let trend_signal : String :=
      if d.trend > 2 then "BUY" else if d.trend < -2 then "SELL" else "NEUTRAL"
    let confidence1 : ℤ :=
      if d.trend > 2 then confidence0 + 10
      else if d.trend < -2 then confidence0 + 10
      else confidence0
    let confidence2 : ℤ :=
      if d.volume_trend > 20 then confidence1 + 10 else confidence1
    let sentiment_signal : String :=
      if sentiment_score > 20 then "BUY"
      else if sentiment_score < -20 then "SELL"
      else "NEUTRAL"
    let confidence3 : ℤ :=
      if sentiment_score > 20 then confidence2 + 15
      else if sentiment_score < -20 then confidence2 + 15
      else confidence2
    if trend_signal = "BUY" ∧ sentiment_signal = "BUY" then
      ("BUY", min (confidence3 + 15) 100)
    else if trend_signal = "SELL" ∧ sentiment_signal = "SELL" then
      ("SELL", min (confidence3 + 15) 100)
    else if trend_signal = "BUY" ∧ sentiment_signal ≠ "SELL" then
      ("BUY", confidence3)
    else if trend_signal = "SELL" ∧ sentiment_signal ≠ "BUY" then
      ("SELL", confidence3)
    else
      ("HOLD", max (confidence3 - 10) 50)

/-! ## Chart detector (`src/chart_detection.py`) -/

/-- The horizontal-ish count of `analyze_line_pattern`
(`chart_detection.py` line 66): angles in `[-30, 30]` degrees. -/
def horizCount (angles : List ℚ) : ℕ :=
  angles.countP (fun a => decide (-30 ≤ a ∧ a ≤ 30))

/-- The vertical-ish count of `analyze_line_pattern`
(`chart_detection.py` line 67): angles in `[60, 120]` degrees. -/
def vertCount (angles : List ℚ) : ℕ :=
  angles.countP (fun a => decide (60 ≤ a ∧ a ≤ 120))

/-- `analyze_line_pattern` (`chart_detection.py` lines 41-83).  The source
computes one angle per detected segment with `np.arctan2` in degrees; that
trigonometric step is a real-number computation on the Hough output, so the
embedding takes the list of computed angles, `none` standing for the
`lines is None` input.  Python `int()` on the nonnegative product
`horiz_ratio * 100` truncates toward zero, i.e. takes the floor. -/
def analyze_line_pattern (lines : Option (List ℚ)) : Bool × ℤ :=
  match lines with
  | none => (false, 0)
  | some angles =>
    if angles.length < 5 then (false, 0)
    else
      let total_lines : ℚ := angles.length
      let hFrac : ℚ := (horizCount angles : ℚ) / total_lines
      let vFrac : ℚ := (vertCount angles : ℚ) / total_lines
      if hFrac > 6/10 ∧ vFrac < 3/10 then (true, min 100 ⌊hFrac * 100⌋)
      else (false, 0)

/-- The metadata record built by `detect_chart` (`chart_detection.py`
lines 162-166), holding the pre-boost line confidence. -/
structure ChartMetadata where
  num_lines : ℕ
  has_grid : Bool
  line_confidence : ℤ
deriving DecidableEq

/-- `detect_chart` (`chart_detection.py` lines 137-182).  `detect_lines`
and `detect_grid_pattern` are OpenCV image computations; the embedding
takes their outputs (the angle list of the detected segments, `none` for a
null Hough result, and the grid boolean) as inputs.  The `none` branch
models the early return on line 153 with its empty metadata dict. -/
def detect_chart (lines : Option (List ℚ)) (has_grid : Bool) :
    Bool × ℤ × Option ChartMetadata :=
  match lines with
  | none => (false, 0, none)
  | some ls =>
    let analyzed := analyze_line_pattern (some ls)
    let is_chart : Bool := analyzed.1
    let line_confidence : ℤ := analyzed.2
    let metadata : ChartMetadata := ⟨ls.length, has_grid, line_confidence⟩
    let confidence : ℤ :=
      if has_grid then min 100 (line_confidence + 20) else line_confidence
    if is_chart ∧ confidence ≥ 60 then (true, confidence, some metadata)
    else (false, confidence, some metadata)

/-! ## Symbol recognizer (`src/ocr.py`, `src/config.py`) -/

/-- `OCR_MATCH_THRESHOLD` (`config.py` line 8). -/
def OCR_MATCH_THRESHOLD : ℚ := 7/10

/-- A glyph bounding box `(x, y, w, h)` as produced by
`segment_characters` (`ocr.py` line 110). -/
structure Region where
  x : ℤ
  y : ℤ
  w : ℤ
  h : ℤ
deriving DecidableEq

/-- `match_character` (`ocr.py` lines 121-158).  `cv2.matchTemplate` with
`TM_CCOEFF_NORMED` followed by `minMaxLoc` yields, for each template, the
best normalized cross-correlation of the resized glyph against it — a
real-valued image computation; the embedding takes the list of
(character, correlation) pairs in the source's template iteration order.
The fold mirrors the loop of lines 139-150 with its strict `>` update
(first maximum wins) starting from `best_match = None`, `best_val = -1`;
lines 152-154 accept only at or above the threshold and report a failed
match as `(None, 0)`. -/
def match_character (scores : List (Char × ℚ)) : Option Char × ℚ :=
  let best := scores.foldl
    (fun (b : Option Char × ℚ) cs => if cs.2 > b.2 then (some cs.1, cs.2) else b)
    (none, -1)
  if best.2 ≥ OCR_MATCH_THRESHOLD then best else (none, 0)

/-- The per-region matching loop of `detect_ticker` (`ocr.py`
lines 187-194): append each matched character to the accumulated ticker,
and return the empty string as soon as any region fails to match. -/
def ticker_loop (matchres : Region → Option Char × ℚ) :
    List Region → String → String
  | [], ticker => ticker
  | r :: rs, ticker =>
    match (matchres r).1 with
    | some c => ticker_loop matchres rs (ticker.push c)
    | none => ""

/-- `detect_ticker` (`ocr.py` lines 160-201).  `preprocess_image` returns a
processed image or `None` (line 173-175), `segment_characters` extracts
glyph regions from it, and each region's crop `processed[y:y+h, x:x+w]` is
classified by `match_character` against the templates — all OpenCV image
computations, taken here as inputs: `processed` is the preprocessor's
output, `segment_characters` the segmenter, and `matchres p r` the
(character, score) result of `match_character` on region `r`'s crop of
`p`. -/
def detect_ticker {Img : Type} (processed : Option Img)
    (segment_characters : Img → List Region)
    (matchres : Img → Region → Option Char × ℚ) : String :=
  match processed with
  | none => ""
  | some p =>
    let char_regions := segment_characters p
    if char_regions = [] then ""
    else if ¬ (3 ≤ char_regions.length ∧ char_regions.length ≤ 5) then ""
    else ticker_loop (matchres p) char_regions ""

/-! ## Theorems about the sentiment scorer and the fusion engine -/

/-- C5: for every sentiment score, `make_recommendation` with an absent
(null) Price Snapshot returns exactly `(HOLD, 50)`; the sentiment input has
no effect on this result. -/
theorem make_recommendation_absent_snapshot (sentiment_score : ℚ) :
    make_recommendation none sentiment_score = ("HOLD", 50) := rfl

/-- C6: `analyze_sentiment` on the empty headline list returns exactly the
score 0 with the label Neutral, as a normal result. -/
theorem analyze_sentiment_empty : analyze_sentiment [] = (0, "Neutral") := rfl

set_option maxHeartbeats 2000000 in
/-- C2: for every combination of trend, volume-trend and sentiment-score
inputs, the confidence returned by `make_recommendation` lies in `[50,100]`
when the Price Snapshot is absent or the HOLD branch is taken, and in
`[0,100]` in every other case; it is never negative and never above 100. -/
theorem make_recommendation_confidence_bounds (stock_data : Option StockData)
    (sentiment_score : ℚ) :
    (0 ≤ (make_recommendation stock_data sentiment_score).2 ∧
      (make_recommendation stock_data sentiment_score).2 ≤ 100) ∧
    ((stock_data = none ∨ (make_recommendation stock_data sentiment_score).1 = "HOLD") →
      50 ≤ (make_recommendation stock_data sentiment_score).2 ∧
        (make_recommendation stock_data sentiment_score).2 ≤ 100) := by
  cases stock_data with
  | none => simp [make_recommendation]
  | some d =>
    unfold make_recommendation
    dsimp only
    split_ifs <;> dsimp only <;>
      exact ⟨⟨by omega, by omega⟩, fun _ => ⟨by omega, by omega⟩⟩

/-- Witness for C2 at a concrete input discharging its hypothesis. -/
theorem make_recommendation_confidence_bounds_witness :
    50 ≤ (make_recommendation none 0).2 ∧ (make_recommendation none 0).2 ≤ 100 :=
  (make_recommendation_confidence_bounds none 0).2 (Or.inl rfl)

/-- C7: the sentiment label uses strict threshold comparisons: a returned
score of exactly 20 is labelled Neutral, any score strictly above 20
Positive, a score of exactly -20 Neutral, and any score strictly below -20
Negative. -/
theorem analyze_sentiment_label_boundaries (headlines : List (List Char)) :
    ((analyze_sentiment headlines).1 = 20 → (analyze_sentiment headlines).2 = "Neutral") ∧
    (20 < (analyze_sentiment headlines).1 → (analyze_sentiment headlines).2 = "Positive") ∧
    ((analyze_sentiment headlines).1 = -20 → (analyze_sentiment headlines).2 = "Neutral") ∧
    ((analyze_sentiment headlines).1 < -20 → (analyze_sentiment headlines).2 = "Negative") := by
  by_cases h : headlines = []
  · subst h
    refine ⟨?_, ?_, ?_, ?_⟩ <;> intro h' <;> norm_num [analyze_sentiment] at h' ⊢
  · simp only [analyze_sentiment, if_neg h]
    refine ⟨?_, ?_, ?_, ?_⟩ <;> intro h1 <;> split_ifs <;>
      first | rfl | (exfalso; linarith)

/-- Witness for C7: a concrete five-headline list whose normalized score is
exactly 20 and whose label is Neutral. -/
theorem analyze_sentiment_label_boundaries_witness :
    (analyze_sentiment [("buy gain profit").toList, [], [], [], []]).1 = 20 ∧
    (analyze_sentiment [("buy gain profit").toList, [], [], [], []]).2 = "Neutral" := by
  have h1 : headline_score
      ['b', 'u', 'y', ' ', 'g', 'a', 'i', 'n', ' ', 'p', 'r', 'o', 'f', 'i', 't'] = 3 := by
    decide
  have h2 : headline_score ([] : List Char) = 0 := by decide
  have hsc : (analyze_sentiment [("buy gain profit").toList, [], [], [], []]).1 = 20 := by
    simp [analyze_sentiment, h1, h2]
    norm_num
  exact ⟨hsc, (analyze_sentiment_label_boundaries _).1 hsc⟩

/-- C10: the normalized sentiment score is not clamped to `[-100, 100]`:
for a single headline containing more than three distinct positive keywords
as substrings, the returned score exceeds 100, because the normalizer
`max(headline_count * 3, 1)` assumes at most 3 keyword hits per headline
while the per-headline count is unbounded. -/
theorem analyze_sentiment_score_exceeds_100 :
    ∃ headlines : List (List Char),
      headlines ≠ [] ∧ 100 < (analyze_sentiment headlines).1 := by
  refine ⟨[("buy bullish upgrade growth").toList], by simp, ?_⟩
  have h1 : headline_score
      ['b', 'u', 'y', ' ', 'b', 'u', 'l', 'l', 'i', 's', 'h', ' ', 'u', 'p', 'g', 'r',
       'a', 'd', 'e', ' ', 'g', 'r', 'o', 'w', 't', 'h'] = 5 := by
    decide
  simp [analyze_sentiment, h1]
  norm_num

/-! ## Theorems about the chart detector -/

/-- C1 fails on the code: with four detected segments (fewer than 5, not a
null result) and a grid reported present, `detect_chart` returns confidence
20, not 0 — the +20 grid boost of `chart_detection.py` line 170 is applied
even when the line-pattern analysis already declared no chart. -/
theorem detect_chart_few_lines_grid_counterexample :
    ([(0:ℚ), 0, 0, 0].length < 5) ∧
    (detect_chart (some [(0:ℚ), 0, 0, 0]) true).2.1 = 20 ∧
    ¬ (detect_chart (some [(0:ℚ), 0, 0, 0]) true).2.1 = 0 := by
  refine ⟨by norm_num, ?_, ?_⟩ <;>
    simp [detect_chart, analyze_line_pattern]

/-- C1 (amended): for every non-null line-detection result with fewer than
5 segments, `detect_chart` returns `is_chart = false` with metadata, and the
returned confidence is 0 when the grid detector reports no grid but 20 when
it reports a grid present (the unconditional grid boost applies to the zero
line confidence). -/
theorem detect_chart_few_lines_verdict (ls : List ℚ) (has_grid : Bool)
    (h : ls.length < 5) :
    detect_chart (some ls) has_grid =
      (false, if has_grid then 20 else 0, some ⟨ls.length, has_grid, 0⟩) := by
  unfold detect_chart analyze_line_pattern
  cases has_grid <;> simp [h]

/-- Witness for C1 (amended) at a concrete three-segment input. -/
theorem detect_chart_few_lines_verdict_witness :
    ([(1:ℚ), 2, 3].length < 5) ∧
    detect_chart (some [(1:ℚ), 2, 3]) false = (false, 0, some ⟨3, false, 0⟩) := by
  refine ⟨by norm_num, ?_⟩
  simpa using detect_chart_few_lines_verdict [(1:ℚ), 2, 3] false (by norm_num)

/-- C8 fails on the code: at six segments of which four are horizontal-ish
and one vertical-ish, the horizontal fraction is 4/6, the source computes
`int(4/6 * 100) = 66` (Python `int()` truncates), while the claimed
`min(100, round(horizontal_fraction * 100))` with round-to-nearest equals
67. -/
theorem analyze_line_pattern_round_counterexample :
    analyze_line_pattern (some [(0:ℚ), 0, 0, 0, 90, 45]) = (true, 66) ∧
    min 100 (round (((4:ℚ)/6) * 100)) = (67:ℤ) := by
  constructor
  · have hh : horizCount [(0:ℚ), 0, 0, 0, 90, 45] = 4 := by decide
    have hv : vertCount [(0:ℚ), 0, 0, 0, 90, 45] = 1 := by decide
    simp only [analyze_line_pattern, hh, hv]
    norm_num [Int.floor_eq_iff]
  · rw [round_eq]
    norm_num [Int.floor_eq_iff]

/-- C8 (amended): for at least 5 segments with horizontal fraction above
0.6 and vertical fraction below 0.3, the line-pattern confidence equals
`min(100, ⌊horizontal_fraction * 100⌋)` — Python `int()` truncation toward
zero, which is the floor of this nonnegative quantity, not rounding to the
nearest integer; in every other case the result is `(false, 0)`. -/
theorem analyze_line_pattern_confidence_formula (angles : List ℚ)
    (h5 : 5 ≤ angles.length) :
    (((horizCount angles : ℚ) / (angles.length : ℚ) > 6/10 ∧
        (vertCount angles : ℚ) / (angles.length : ℚ) < 3/10) →
      analyze_line_pattern (some angles) =
        (true, min 100 ⌊(horizCount angles : ℚ) / (angles.length : ℚ) * 100⌋)) ∧
    (¬ ((horizCount angles : ℚ) / (angles.length : ℚ) > 6/10 ∧
        (vertCount angles : ℚ) / (angles.length : ℚ) < 3/10) →
      analyze_line_pattern (some angles) = (false, 0)) := by
  have h' : ¬ angles.length < 5 := by omega
  unfold analyze_line_pattern
  dsimp only
  rw [if_neg h']
  constructor <;> intro hc
  · rw [if_pos hc]
  · rw [if_neg hc]

/-- Witness for C8 (amended): five purely horizontal segments give a
full-confidence line-pattern match. -/
theorem analyze_line_pattern_confidence_formula_witness :
    analyze_line_pattern (some [(0:ℚ), 0, 0, 0, 0]) = (true, 100) := by
  have hh : horizCount [(0:ℚ), 0, 0, 0, 0] = 5 := by decide
  have hv : vertCount [(0:ℚ), 0, 0, 0, 0] = 0 := by decide
  have h := (analyze_line_pattern_confidence_formula [(0:ℚ), 0, 0, 0, 0]
    (by norm_num)).1 (by rw [hh, hv]; norm_num)
  rw [h, hh]
  norm_num [Int.floor_eq_iff]

/-! ## Theorems about the symbol recognizer -/

/-- The best-score fold of `match_character` either keeps its initial
accumulator or lands on one of the listed (character, score) pairs. -/
lemma match_fold_cases (scores : List (Char × ℚ)) (b : Option Char × ℚ) :
    scores.foldl (fun (b : Option Char × ℚ) cs =>
        if cs.2 > b.2 then (some cs.1, cs.2) else b) b = b ∨
      ∃ p ∈ scores, scores.foldl (fun (b : Option Char × ℚ) cs =>
        if cs.2 > b.2 then (some cs.1, cs.2) else b) b = (some p.1, p.2) := by
  induction scores generalizing b with
  | nil => exact Or.inl rfl
  | cons c cs ih =>
    simp only [List.foldl_cons]
    by_cases hc : c.2 > b.2
    · rw [if_pos hc]
      rcases ih (some c.1, c.2) with h | ⟨p, hp, h⟩
      · exact Or.inr ⟨c, List.mem_cons_self _ _, h⟩
      · exact Or.inr ⟨p, List.mem_cons_of_mem _ hp, h⟩
    · rw [if_neg hc]
      rcases ih b with h | ⟨p, hp, h⟩
      · exact Or.inl h
      · exact Or.inr ⟨p, List.mem_cons_of_mem _ hp, h⟩

/-- The best-score fold of `match_character` dominates its initial
accumulator's score and every listed score. -/
lemma match_fold_le (scores : List (Char × ℚ)) (b : Option Char × ℚ) :
    b.2 ≤ (scores.foldl (fun (b : Option Char × ℚ) cs =>
        if cs.2 > b.2 then (some cs.1, cs.2) else b) b).2 ∧
      ∀ p ∈ scores, p.2 ≤ (scores.foldl (fun (b : Option Char × ℚ) cs =>
        if cs.2 > b.2 then (some cs.1, cs.2) else b) b).2 := by
  induction scores generalizing b with
  | nil => exact ⟨le_refl _, by simp⟩
  | cons c cs ih =>
    simp only [List.foldl_cons]
    have hstep : b.2 ≤ (if c.2 > b.2 then ((some c.1, c.2) : Option Char × ℚ) else b).2 ∧
        c.2 ≤ (if c.2 > b.2 then ((some c.1, c.2) : Option Char × ℚ) else b).2 := by
      by_cases hc : c.2 > b.2
      · rw [if_pos hc]; exact ⟨le_of_lt hc, le_refl _⟩
      · rw [if_neg hc]; exact ⟨le_refl _, le_of_not_lt hc⟩
    rcases ih (if c.2 > b.2 then (some c.1, c.2) else b) with ⟨h1, h2⟩
    refine ⟨le_trans hstep.1 h1, ?_⟩
    intro p hp
    rcases List.mem_cons.mp hp with rfl | hmem
    · exact le_trans hstep.2 h1
    · exact h2 p hmem

/-- C9: for every template score list whose correlations lie in `[-1, 1]`
(the range of normalized cross-correlation), `match_character` returns
`(none, 0)` when the best score over all templates is below
`OCR_MATCH_THRESHOLD` (i.e. every score is), and otherwise returns a listed
character together with its own score, which is the best one — at least
the threshold and no smaller than any listed score; the returned score
always lies in `[0, 1]` and a failed match is an ordinary value, never an
error. -/
theorem match_character_spec (scores : List (Char × ℚ))
    (hb : ∀ p ∈ scores, -1 ≤ p.2 ∧ p.2 ≤ 1) :
    ((∀ p ∈ scores, p.2 < OCR_MATCH_THRESHOLD) →
      match_character scores = (none, 0)) ∧
    ((∃ p ∈ scores, OCR_MATCH_THRESHOLD ≤ p.2) →
      ∃ c s, match_character scores = (some c, s) ∧ (c, s) ∈ scores ∧
        OCR_MATCH_THRESHOLD ≤ s ∧ ∀ p ∈ scores, p.2 ≤ s) ∧
    (0 ≤ (match_character scores).2 ∧ (match_character scores).2 ≤ 1) := by
  unfold match_character
  dsimp only
  rcases match_fold_cases scores (none, -1) with h | ⟨p, hp, h⟩
  · rw [h, if_neg (by norm_num [OCR_MATCH_THRESHOLD])]
    refine ⟨fun _ => rfl, ?_, le_refl _, by norm_num⟩
    rintro ⟨q, hq, hθq⟩
    exfalso
    have hle := (match_fold_le scores (none, -1)).2 q hq
    rw [h] at hle
    have hle2 : q.2 ≤ (-1 : ℚ) := hle
    norm_num [OCR_MATCH_THRESHOLD] at hθq
    linarith
  · by_cases hθp : OCR_MATCH_THRESHOLD ≤ p.2
    · have hcond : ((some p.1, p.2) : Option Char × ℚ).2 ≥ OCR_MATCH_THRESHOLD := hθp
      rw [h, if_pos hcond]
      refine ⟨?_, ?_, ?_, (hb p hp).2⟩
      · intro hall
        exact absurd hθp (not_le.mpr (hall p hp))
      · intro _
        refine ⟨p.1, p.2, rfl, by simpa using hp, hθp, ?_⟩
        intro q hq
        have hle := (match_fold_le scores (none, -1)).2 q hq
        rwa [h] at hle
      · exact le_trans (by norm_num [OCR_MATCH_THRESHOLD]) hθp
    · have hcond : ¬ ((some p.1, p.2) : Option Char × ℚ).2 ≥ OCR_MATCH_THRESHOLD := hθp
      rw [h, if_neg hcond]
      refine ⟨fun _ => rfl, ?_, le_refl _, by norm_num⟩
      rintro ⟨q, hq, hθq⟩
      exfalso
      have hle := (match_fold_le scores (none, -1)).2 q hq
      rw [h] at hle
      exact hθp (le_trans hθq hle)

/-- Witness for C9 at a concrete score list within `[-1, 1]` containing an
above-threshold score: the best pair is returned. -/
theorem match_character_spec_witness :
    ∃ c s, match_character [('A', (9:ℚ)/10), ('B', (1:ℚ)/2)] = (some c, s) ∧
      (c, s) ∈ [('A', (9:ℚ)/10), ('B', (1:ℚ)/2)] ∧
      OCR_MATCH_THRESHOLD ≤ s ∧
      ∀ p ∈ [('A', (9:ℚ)/10), ('B', (1:ℚ)/2)], p.2 ≤ s :=
  (match_character_spec [('A', (9:ℚ)/10), ('B', (1:ℚ)/2)]
      (by intro p hp; fin_cases hp <;> norm_num)).2.1
    ⟨('A', (9:ℚ)/10), by simp, by norm_num [OCR_MATCH_THRESHOLD]⟩

/-- If any region in the list fails to match, the ticker loop returns the
empty string, whatever prefix was already accumulated. -/
lemma ticker_loop_eq_empty (matchres : Region → Option Char × ℚ)
    (l : List Region) (acc : String)
    (h : ∃ r ∈ l, (matchres r).1 = none) :
    ticker_loop matchres l acc = "" := by
  induction l generalizing acc with
  | nil => simp at h
  | cons r rs ih =>
    rcases h with ⟨s, hs, hnone⟩
    rcases List.mem_cons.mp hs with rfl | hmem
    · simp only [ticker_loop, hnone]
    · cases hm : (matchres r).1 with
      | none => simp only [ticker_loop, hm]
      | some c =>
        simp only [ticker_loop, hm]
        exact ih _ ⟨s, hmem, hnone⟩

/-- C3: whenever segmentation yields between 3 and 5 regions and the
template classifier returns no match for at least one of them,
`detect_ticker` returns the empty result — never a partial string built
from the regions that did match. -/
theorem detect_ticker_any_unmatched_empty {Img : Type} (p : Img)
    (segment_characters : Img → List Region)
    (matchres : Img → Region → Option Char × ℚ)
    (h3 : 3 ≤ (segment_characters p).length)
    (h5 : (segment_characters p).length ≤ 5)
    (hfail : ∃ r ∈ segment_characters p, (matchres p r).1 = none) :
    detect_ticker (some p) segment_characters matchres = "" := by
  unfold detect_ticker
  dsimp only
  have hne : ¬ segment_characters p = [] := by
    intro h0
    rw [h0] at h3
    simp at h3
  rw [if_neg hne, if_neg (not_not_intro ⟨h3, h5⟩)]
  exact ticker_loop_eq_empty _ _ _ hfail

/-- Witness for C3: three regions of which two fail to match. -/
theorem detect_ticker_any_unmatched_empty_witness :
    detect_ticker (some ())
      (fun _ => ([⟨0, 0, 0, 0⟩, ⟨1, 0, 0, 0⟩, ⟨2, 0, 0, 0⟩] : List Region))
      (fun _ r => if r.x = 0 then (some 'A', (9:ℚ)/10) else (none, 0)) = "" :=
  detect_ticker_any_unmatched_empty () _ _ (by norm_num) (by norm_num)
    ⟨⟨1, 0, 0, 0⟩, by norm_num, by norm_num⟩

/-- C4: whenever segmentation yields a region count outside `[3, 5]`,
`detect_ticker` returns the empty result for every possible classifier —
no region is classified, however well it would have matched. -/
theorem detect_ticker_bad_count_empty {Img : Type} (p : Img)
    (segment_characters : Img → List Region)
    (matchres : Img → Region → Option Char × ℚ)
    (h : ¬ (3 ≤ (segment_characters p).length ∧ (segment_characters p).length ≤ 5)) :
    detect_ticker (some p) segment_characters matchres = "" := by
  unfold detect_ticker
  dsimp only
  by_cases h0 : segment_characters p = []
  · rw [if_pos h0]
  · rw [if_neg h0, if_pos h]

/-- Witness for C4: six regions, each of which would match perfectly. -/
theorem detect_ticker_bad_count_empty_witness :
    detect_ticker (some ())
      (fun _ => ([⟨0, 0, 0, 0⟩, ⟨1, 0, 0, 0⟩, ⟨2, 0, 0, 0⟩,
                  ⟨3, 0, 0, 0⟩, ⟨4, 0, 0, 0⟩, ⟨5, 0, 0, 0⟩] : List Region))
      (fun _ _ => (some 'A', 1)) = "" :=
  detect_ticker_bad_count_empty () _ _ (by norm_num)

end StockAnalysis
